import Mathlib

set_option maxHeartbeats 1000000

namespace Midjourney

/-- JSON values as decoded by Python's `json` module, with numbers restricted
to integers (the client's wire protocol carries only integer `status` codes and
string payloads; no float appears in any claim). Objects are insertion-ordered
association lists with unique keys, mirroring Python dicts. The same type also
stands for the Python values a node returns (dict/list/str/int/bool/None). -/
inductive Json where
  | null
  | bool (b : Bool)
  | num (n : Int)
  | str (s : String)
  | arr (elems : List Json)
  | obj (fields : List (String × Json))

/-- First (unique) binding of a key in a decoded object: Python dict
membership test plus subscript, and `dict.get` once combined with `getD`. -/
def lookupField : List (String × Json) → String → Option Json
  | [], _ => none
  | (k0, v) :: rest, k => if k0 = k then some v else lookupField rest k

/-- Python dict insertion: replace the value of an existing key in place,
otherwise append; first-occurrence key order is preserved, as in Python. -/
def setKey : List (String × Json) → String → Json → List (String × Json)
  | [], k, v => [(k, v)]
  | (k0, v0) :: rest, k, v =>
    if k0 = k then (k0, v) :: rest else (k0, v0) :: setKey rest k v

/-- Python truthiness of a decoded value (`if job_id and ...`). -/
def Json.pyTruthy : Json → Bool
  | .null => false
  | .bool b => b
  | .num n => n != 0
  | .str s => s != ""
  | .arr xs => !xs.isEmpty
  | .obj fs => !fs.isEmpty

/-- Python `==` between a decoded value and an int literal: ints compare by
value, and `True == 1` / `False == 0` hold in Python; every other type
compares unequal to an int. -/
def Json.pyEqInt : Json → Int → Bool
  | .num n, m => n == m
  | .bool true, m => m == 1
  | .bool false, m => m == 0
  | _, _ => false

/-- Python type name of a decoded value, used in `AttributeError` messages. -/
def typeName : Json → String
  | .null => "NoneType"
  | .bool _ => "bool"
  | .num _ => "int"
  | .str _ => "str"
  | .arr _ => "list"
  | .obj _ => "dict"

/-- Message of the `AttributeError` raised by `value.get(...)` when the decoded
response body is not a dict. -/
def pyAttrErrMsg (j : Json) : String :=
  "\x27" ++ typeName j ++ "\x27 object has no attribute \x27get\x27"

mutual

/-- Python `repr` of a decoded value (single-quoted strings), as produced by
`str` applied to a dict or list. -/
def pyRepr : Json → String
  | .null => "None"
  | .bool true => "True"
  | .bool false => "False"
  | .num n => toString n
  | .str s => "\x27" ++ s ++ "\x27"
  | .arr xs => "[" ++ pyReprList xs ++ "]"
  | .obj fs => "\x7b" ++ pyReprFields fs ++ "\x7d"

def pyReprList : List Json → String
  | [] => ""
  | x :: rest => pyRepr x ++ (if rest.isEmpty then "" else ", ") ++ pyReprList rest

def pyReprFields : List (String × Json) → String
  | [] => ""
  | (k, v) :: rest =>
    "\x27" ++ k ++ "\x27: " ++ pyRepr v ++ (if rest.isEmpty then "" else ", ") ++
      pyReprFields rest

end

/-- Python `str()` of a decoded value: strings pass through unquoted, scalars
print Python-style, containers fall back to `repr`. -/
def pyStr : Json → String
  | .str s => s
  | j => pyRepr j

/-- JSON string escaping for the serializer (quote, backslash and the common
control characters; `ensure_ascii=False` leaves other characters as they are). -/
def escapeChars : List Char → List Char
  | [] => []
  | c :: cs =>
    if c = '"' then '\\' :: '"' :: escapeChars cs
    else if c = '\\' then '\\' :: '\\' :: escapeChars cs
    else if c = '\n' then '\\' :: 'n' :: escapeChars cs
    else if c = '\t' then '\\' :: 't' :: escapeChars cs
    else if c = '\r' then '\\' :: 'r' :: escapeChars cs
    else c :: escapeChars cs

/-- A JSON string literal. -/
def jstr (s : String) : String := "\"" ++ String.mk (escapeChars s.data) ++ "\""

mutual

/-- `json.dumps(..., ensure_ascii=False)`. The whitespace layout (some call
sites pass `indent=2`) is not modelled: every claim is insensitive to the
serializer's spacing, and one fixed layout is used throughout. -/
def dumps : Json → String
  | .null => "null"
  | .bool true => "true"
  | .bool false => "false"
  | .num n => toString n
  | .str s => jstr s
  | .arr xs => "[" ++ dumpsList xs ++ "]"
  | .obj fs => "\x7b" ++ dumpsFields fs ++ "\x7d"

def dumpsList : List Json → String
  | [] => ""
  | x :: rest => dumps x ++ (if rest.isEmpty then "" else ", ") ++ dumpsList rest

def dumpsFields : List (String × Json) → String
  | [] => ""
  | (k, v) :: rest =>
    jstr k ++ ": " ++ dumps v ++ (if rest.isEmpty then "" else ", ") ++
      dumpsFields rest

end

/-- ASCII whitespace as Python's `str.strip` and the JSON grammar treat it
(the further unicode space characters Python also strips never occur in this
client's payloads and are outside the model). -/
def isSpaceChar (c : Char) : Bool :=
  c = ' ' ∨ c = '\t' ∨ c = '\n' ∨ c = '\r'

/-- Python `str.strip()`. -/
def strip (s : String) : String :=
  String.mk (((s.data.dropWhile isSpaceChar).reverse.dropWhile isSpaceChar).reverse)

/-- Python `str.split('.')`: every `.` separates, empty segments are kept. -/
def splitDotAux : List Char → List Char → List String
  | acc, [] => [String.mk acc.reverse]
  | acc, c :: cs =>
    if c = '.' then String.mk acc.reverse :: splitDotAux [] cs
    else splitDotAux (c :: acc) cs

/-- Python `key_path.strip().split('.')`. -/
def splitDot (s : String) : List String := splitDotAux [] s.data

/-- JSON insignificant whitespace. -/
def skipWs : List Char → List Char
  | [] => []
  | c :: cs => if c = ' ' ∨ c = '\t' ∨ c = '\n' ∨ c = '\r' then skipWs cs else c :: cs

/-- Numeric value of a run of decimal digits. -/
def digitsVal (cs : List Char) : Nat :=
  cs.foldl (fun a c => a * 10 + (c.toNat - 48)) 0

/-- Longest digit run at the front of the input. -/
def takeDigits : List Char → List Char × List Char
  | [] => ([], [])
  | c :: cs =>
    if c.isDigit then
      let p := takeDigits cs
      (c :: p.1, p.2)
    else ([], c :: cs)

/-- Body of a JSON string literal after the opening quote, handling the common
escapes; returns the decoded characters and the input after the closing quote. -/
def parseStrChars : List Char → Option (List Char × List Char)
  | [] => none
  | c :: cs =>
    if c = '"' then some ([], cs)
    else if c = '\\' then
      match cs with
      | [] => none
      | e :: rest =>
        let ec : Option Char :=
          if e = '"' then some '"'
          else if e = '\\' then some '\\'
          else if e = '/' then some '/'
          else if e = 'n' then some '\n'
          else if e = 't' then some '\t'
          else if e = 'r' then some '\r'
          else none
        match ec with
        | none => none
        | some ch =>
          match parseStrChars rest with
          | none => none
          | some (out, rem) => some (ch :: out, rem)
    else
      match parseStrChars cs with
      | none => none
      | some (out, rem) => some (c :: out, rem)

/-- A JSON integer literal (optional minus, no leading zeros), as accepted by
the modelled fragment of `json.loads`. -/
def parseIntNum (cs : List Char) : Option (Int × List Char) :=
  match cs with
  | '-' :: rest =>
    match takeDigits rest with
    | ([], _) => none
    | (ds, rem) =>
      if 1 < ds.length ∧ ds.headD '1' = '0' then none
      else some (-(digitsVal ds : Int), rem)
  | _ =>
    match takeDigits cs with
    | ([], _) => none
    | (ds, rem) =>
      if 1 < ds.length ∧ ds.headD '1' = '0' then none
      else some ((digitsVal ds : Int), rem)

mutual

/-- Recursive-descent parser for the integer fragment of JSON, modelling
`json.loads` on the payloads this client exchanges (objects, arrays, strings,
integers, booleans, null; floats and `\u` escapes are outside the model and
fail to parse). Fuel bounds the nesting depth. -/
def parseVal : Nat → List Char → Option (Json × List Char)
  | 0, _ => none
  | fuel + 1, cs =>
    match skipWs cs with
    | [] => none
    | 'n' :: 'u' :: 'l' :: 'l' :: rest => some (.null, rest)
    | 't' :: 'r' :: 'u' :: 'e' :: rest => some (.bool true, rest)
    | 'f' :: 'a' :: 'l' :: 's' :: 'e' :: rest => some (.bool false, rest)
    | '"' :: rest =>
      match parseStrChars rest with
      | some (out, rem) => some (.str (String.mk out), rem)
      | none => none
    | '[' :: rest =>
      match skipWs rest with
      | ']' :: rem => some (.arr [], rem)
      | other =>
        match parseElems fuel other with
        | some (xs, rem) => some (.arr xs, rem)
        | none => none
    | c :: rest =>
      if c.toNat = 123 then
        match skipWs rest with
        | d :: rem1 =>
          if d.toNat = 125 then some (.obj [], rem1)
          else
            match parseFields fuel (d :: rem1) with
            | some (pairs, rem2) =>
              some (.obj (pairs.foldl (fun acc kv => setKey acc kv.1 kv.2) []), rem2)
            | none => none
        | [] => none
      else if c = '-' ∨ c.isDigit then
        match parseIntNum (c :: rest) with
        | some (n, rem) => some (.num n, rem)
        | none => none
      else none

/-- Comma-separated array elements up to the closing bracket. -/
def parseElems : Nat → List Char → Option (List Json × List Char)
  | 0, _ => none
  | fuel + 1, cs =>
    match parseVal fuel cs with
    | none => none
    | some (v, rem) =>
      match skipWs rem with
      | ']' :: rem2 => some ([v], rem2)
      | ',' :: rem2 =>
        match parseElems fuel rem2 with
        | some (vs, rem3) => some (v :: vs, rem3)
        | none => none
      | _ => none

/-- Comma-separated object members up to the closing brace, in source order. -/
def parseFields : Nat → List Char → Option (List (String × Json) × List Char)
  | 0, _ => none
  | fuel + 1, cs =>
    match skipWs cs with
    | '"' :: rest =>
      match parseStrChars rest with
      | none => none
      | some (kout, rem) =>
        match skipWs rem with
        | ':' :: rem2 =>
          match parseVal fuel rem2 with
          | none => none
          | some (v, rem3) =>
            match skipWs rem3 with
            | ',' :: rem4 =>
              match parseFields fuel rem4 with
              | some (fs, rem5) => some ((String.mk kout, v) :: fs, rem5)
              | none => none
            | c2 :: rem4 =>
              if c2.toNat = 125 then some ([(String.mk kout, v)], rem4) else none
            | [] => none
        | _ => none
    | _ => none

end

/-- `json.loads`: parse a complete document, allowing trailing whitespace only. -/
def loads (s : String) : Option Json :=
  match parseVal (2 * s.length + 4) s.data with
  | some (v, rem) => if skipWs rem = [] then some v else none
  | none => none

/-- Outcome of one HTTP request as the node code observes it:
`requestError` is a `requests.exceptions.RequestException` (connection
failure, timeout, or a non-2xx status via `raise_for_status`), `decodeError`
is a failure of `response.json()`, and `ok` carries the decoded body. -/
inductive HttpResult where
  | requestError (msg : String)
  | decodeError (msg : String)
  | ok (body : Json)

/-- One iteration of a polling loop: the response the iteration's GET yields,
together with the value of `time.time() - start_time` at the point where that
iteration performs its timeout comparison. -/
structure PollStep where
  elapsed : Int
  resp : HttpResult

/-- The timeout message both loops build from `max_wait_time`. -/
def timeoutMsg (m : Int) : String := "任务轮询超时 (" ++ toString m ++ "秒)"

/-- The `while True` loop of `MidjourneyAPIPoll.poll` (src/module/node.py
lines 314-374), driven by an explicit trace of response/elapsed-time steps.
`none` means the trace ran out while the loop would still be iterating. The
second component of the result is the Python value placed in the node's INT
output slot. -/
def pollLoop (job_id : String) (max_wait_time : Int) (single_query : Bool) :
    List PollStep → Option (String × Json)
  | [] => none
  | step :: rest =>
    match step.resp with
    | .requestError msg =>
      some (dumps (Json.obj [("error", Json.str ("轮询请求失败: " ++ msg)),
        ("job_id", Json.str job_id)]), Json.num 0)
    | .decodeError msg =>
      some (dumps (Json.obj [("error", Json.str ("轮询过程出错: " ++ msg)),
        ("job_id", Json.str job_id)]), Json.num 0)
    | .ok body =>
      match body with
      | .obj fields =>
        let job_status := (lookupField fields "status").getD (Json.num 0)
        if job_status.pyEqInt 2 then some (dumps (Json.obj fields), Json.num 2)
        else if job_status.pyEqInt 3 then some (dumps (Json.obj fields), Json.num 3)
        else if single_query then some (dumps (Json.obj fields), job_status)
        else if job_status.pyEqInt 1 then
          if step.elapsed > max_wait_time then
            some (dumps (Json.obj [("error", Json.str (timeoutMsg max_wait_time)),
              ("job_id", Json.str job_id), ("last_status", job_status)]), Json.num (-1))
          else pollLoop job_id max_wait_time single_query rest
        else some (dumps (Json.obj fields), job_status)
      | other =>
        some (dumps (Json.obj [("error",
          Json.str ("轮询过程出错: " ++ pyAttrErrMsg other)),
          ("job_id", Json.str job_id)]), Json.num 0)

/-- `MidjourneyAPIPoll.poll` (src/module/node.py lines 286-374): blank-input
validation followed by the polling loop. `poll_interval` only controls the
real-time sleep and does not influence any returned value, so it does not
appear; the passage of wall-clock time is carried by the trace instead. -/
def poll (job_id app_id secret_key : String) (max_wait_time : Int)
    (single_query : Bool) (trace : List PollStep) : Option (String × Json) :=
  if job_id = "" ∨ strip job_id = "" then
    some (dumps (Json.obj [("error", Json.str "job_id 不能为空")]), Json.num 0)
  else if app_id = "" ∨ strip app_id = "" then
    some (dumps (Json.obj [("error", Json.str "app_id 不能为空")]), Json.num 0)
  else if secret_key = "" ∨ strip secret_key = "" then
    some (dumps (Json.obj [("error", Json.str "secret_key 不能为空")]), Json.num 0)
  else pollLoop job_id max_wait_time single_query trace

/-- `_poll_job_result` (src/module/node.py lines 7-67), the internal auto-poll
variant used by the combined submit+poll node: the timeout is checked at the
top of each iteration, there is no single-query escape, and only the final
body (a decoded value, no status-code channel) is returned. `job_id` is the
value extracted from the submission response, kept as a decoded value because
the code embeds it unchanged in its error objects. -/
def poll_job_result (job_id : Json) (max_wait_time : Int) :
    List PollStep → Option Json
  | [] => none
  | step :: rest =>
    if step.elapsed > max_wait_time then
      some (Json.obj [("error", Json.str (timeoutMsg max_wait_time)),
        ("job_id", job_id)])
    else
      match step.resp with
      | .requestError msg =>
        some (Json.obj [("error", Json.str ("轮询请求失败: " ++ msg)),
          ("job_id", job_id)])
      | .decodeError msg =>
        some (Json.obj [("error", Json.str ("轮询过程出错: " ++ msg)),
          ("job_id", job_id)])
      | .ok body =>
        match body with
        | .obj fields =>
          let job_status := (lookupField fields "status").getD (Json.num 0)
          if job_status.pyEqInt 2 then some (Json.obj fields)
          else if job_status.pyEqInt 3 then some (Json.obj fields)
          else if job_status.pyEqInt 1 then poll_job_result job_id max_wait_time rest
          else some (Json.obj fields)
        | other =>
          some (Json.obj [("error",
            Json.str ("轮询过程出错: " ++ pyAttrErrMsg other)),
            ("job_id", job_id)])

/-- `MidjourneyAPI.run` (src/module/node.py lines 98-163), the combined
submit+poll node. `post` is the outcome of the submission POST and `ptrace`
drives the auto-poll loop. The node returns a single JSON text (its one
STRING output); the blank-input `ValueError`s are caught by the generic
handler and surface with the `未知错误: ` prefix. `none` means the auto-poll
trace ran out mid-loop. -/
def run (text app_id secret_key : String) (auto_poll : Bool)
    (max_wait_time : Int) (post : HttpResult) (ptrace : List PollStep) :
    Option String :=
  if text = "" ∨ strip text = "" then
    some (dumps (Json.obj [("error", Json.str "未知错误: text 不能为空")]))
  else if app_id = "" ∨ strip app_id = "" then
    some (dumps (Json.obj [("error", Json.str "未知错误: app_id 不能为空")]))
  else if secret_key = "" ∨ strip secret_key = "" then
    some (dumps (Json.obj [("error", Json.str "未知错误: secret_key 不能为空")]))
  else
    match post with
    | .requestError msg =>
      some (dumps (Json.obj [("error", Json.str ("API 请求失败: " ++ msg))]))
    | .decodeError msg =>
      some (dumps (Json.obj [("error", Json.str ("JSON 解析失败: " ++ msg))]))
    | .ok body =>
      match body with
      | .obj fields =>
        let job_id := (lookupField fields "id").getD (Json.str "")
        let job_status := (lookupField fields "status").getD (Json.num 0)
        if auto_poll && job_id.pyTruthy && job_status.pyEqInt 1 then
          match poll_job_result job_id max_wait_time ptrace with
          | some rd => some (dumps rd)
          | none => none
        else some (dumps (Json.obj fields))
      | other =>
        some (dumps (Json.obj [("error",
          Json.str ("未知错误: " ++ pyAttrErrMsg other))]))

/-- `MidjourneyAPISubmit.submit` (src/module/node.py lines 191-256): returns
the (job_id, response JSON text) pair; error paths return an empty job id and
an error-shaped JSON text. -/
def submit (text app_id secret_key : String) (post : HttpResult) :
    Json × String :=
  if text = "" ∨ strip text = "" then
    (Json.str "", dumps (Json.obj [("error", Json.str "未知错误: text 不能为空")]))
  else if app_id = "" ∨ strip app_id = "" then
    (Json.str "", dumps (Json.obj [("error", Json.str "未知错误: app_id 不能为空")]))
  else if secret_key = "" ∨ strip secret_key = "" then
    (Json.str "", dumps (Json.obj [("error", Json.str "未知错误: secret_key 不能为空")]))
  else
    match post with
    | .requestError msg =>
      (Json.str "", dumps (Json.obj [("error", Json.str ("API 请求失败: " ++ msg))]))
    | .decodeError msg =>
      (Json.str "", dumps (Json.obj [("error", Json.str ("JSON 解析失败: " ++ msg))]))
    | .ok body =>
      match body with
      | .obj fields =>
        ((lookupField fields "id").getD (Json.str ""), dumps (Json.obj fields))
      | other =>
        (Json.str "", dumps (Json.obj [("error",
          Json.str ("未知错误: " ++ pyAttrErrMsg other))]))

/-- The exceptions the extractor's `try` body can raise and its handlers
catch: `json.JSONDecodeError`, `KeyError`, and anything else. -/
inductive PyErr where
  | jsonDecodeError (msg : String)
  | keyError (msg : String)
  | otherError (msg : String)

/-- `json_input` as received by `MidjourneyJSONExtractor.extract`: either a
JSON-encoded string or an already-decoded structure. -/
inductive ExtractInput where
  | str (s : String)
  | decoded (j : Json)

/-- The two result shapes `extract` can return to the host: the success path's
dict `\x7b"ui": \x7b"json": [formatted], "text": [text]\x7d, "result":
(formatted,)\x7d` — a UI preview payload plus a one-element result tuple
holding `formatted` — and the failure path's bare one-element tuple
`(default_value,)`. -/
inductive ExtractResult where
  | uiDict (formatted : Json) (text : String)
  | plainTuple (v : String)

/-- The value sitting in the host-facing result slot: the `formatted` value on
the success path, the (string) default value on the failure path. -/
def ExtractResult.primaryValue : ExtractResult → Json
  | .uiDict formatted _ => formatted
  | .plainTuple v => Json.str v

/-- The initial parse of `json_input` (src/module/node.py lines 405-408). -/
def decodeInput : ExtractInput → Option Json
  | .str s => loads s
  | .decoded j => some j

/-- The traversal loop of `extract` (src/module/node.py lines 414-426): descend
into a mapping when the segment is a present key, index a sequence when the
segment is all digits and in range, and raise `KeyError` otherwise. -/
def traverse : Json → List String → Except PyErr Json
  | cur, [] => .ok cur
  | cur, k :: ks =>
    match cur with
    | .obj fields =>
      match lookupField fields k with
      | some v => traverse v ks
      | none => .error (.keyError ("键 \x27" ++ k ++ "\x27 不存在"))
    | .arr xs =>
      if k ≠ "" ∧ k.data.all Char.isDigit then
        let index := digitsVal k.data
        if h : index < xs.length then traverse (xs.get ⟨index, h⟩) ks
        else .error (.keyError ("数组索引 " ++ toString index ++ " 超出范围"))
      else .error (.keyError ("键 \x27" ++ k ++ "\x27 不存在"))
    | _ => .error (.keyError ("键 \x27" ++ k ++ "\x27 不存在"))

/-- The result-formatting step (src/module/node.py lines 429-435): with
`return_as_string` true, composite values are serialized and scalars pass
through Python `str`; with it false, `str(current_data) if current_data is not
None else ""`. -/
def formatResult (cur : Json) (return_as_string : Bool) : String :=
  if return_as_string then
    match cur with
    | .obj fs => dumps (.obj fs)
    | .arr xs => dumps (.arr xs)
    | j => pyStr j
  else
    match cur with
    | .null => ""
    | j => pyStr j

/-- The `try` body of `MidjourneyJSONExtractor.extract` (src/module/node.py
lines 403-444): parse, traverse, format, then re-parse the string result to
build the `formatted` preview value (falling back to the plain string when the
re-parse fails), and return the UI dict. -/
def extractTry (input : ExtractInput) (key_path : String)
    (return_as_string : Bool) : Except PyErr ExtractResult :=
  match decodeInput input with
  | none => .error (.jsonDecodeError "Expecting value")
  | some data =>
    match traverse data (splitDot (strip key_path)) with
    | .error e => .error e
    | .ok cur =>
      let result := formatResult cur return_as_string
      let formatted :=
        match loads result with
        | some j => j
        | none => Json.str result
      .ok (.uiDict formatted result)

/-- `MidjourneyJSONExtractor.extract` (src/module/node.py lines 402-459): every
exception from the body is caught and turned into the bare `(default_value,)`
tuple — all three handlers return the same value. -/
def extract (input : ExtractInput) (key_path : String)
    (default_value : String) (return_as_string : Bool) : ExtractResult :=
  match extractTry input key_path return_as_string with
  | .ok r => r
  | .error _ => .plainTuple default_value

/-! Theorems. -/

/-- A non-blank string fails the node's blank test. -/
lemma not_blank_cond {s : String} (h : strip s ≠ "") : ¬(s = "" ∨ strip s = "") := by
  rintro (rfl | h2)
  · exact h (by decide)
  · exact h h2

/-- C1: with `single_query = true` and non-blank `job_id`, `app_id`,
`secret_key`, `poll` returns after exactly one status-check response (the
remaining trace is arbitrary and unused), and the returned status code equals
the `status` field of that response's decoded body — statuses 1, 2 and 3
included. -/
theorem poll_single_query_first_response
    (job_id app_id secret_key : String)
    (hj : strip job_id ≠ "") (ha : strip app_id ≠ "") (hs : strip secret_key ≠ "")
    (max_wait_time t : Int) (fields : List (String × Json)) (n : Int)
    (hst : lookupField fields "status" = some (Json.num n)) (rest : List PollStep) :
    poll job_id app_id secret_key max_wait_time true
        (⟨t, .ok (.obj fields)⟩ :: rest) =
      some (dumps (Json.obj fields), Json.num n) := by
  unfold poll
  rw [if_neg (not_blank_cond hj), if_neg (not_blank_cond ha),
    if_neg (not_blank_cond hs)]
  by_cases h2 : n = 2
  · subst h2; simp [pollLoop, hst, Json.pyEqInt]
  · by_cases h3 : n = 3
    · subst h3; simp [pollLoop, hst, Json.pyEqInt]
    · simp [pollLoop, hst, Json.pyEqInt, h2, h3]

/-- Witness for C1: a first response with status 1 yields code 1, no retry. -/
theorem poll_single_query_first_response_witness :
    poll "job-1" "app" "secret" 300 true
        [⟨0, .ok (.obj [("status", Json.num 1)])⟩] =
      some (dumps (Json.obj [("status", Json.num 1)]), Json.num 1) :=
  poll_single_query_first_response "job-1" "app" "secret"
    (by decide) (by decide) (by decide) 300 0 [("status", Json.num 1)] 1 rfl []

/-- A polling-loop step whose response decodes to a body with `status` 1. -/
def inProgressStep (s : PollStep) : Prop :=
  ∃ fields, s.resp = HttpResult.ok (Json.obj fields) ∧
    lookupField fields "status" = some (Json.num 1)

/-- The loop of `MidjourneyAPIPoll.poll` in non-single-query mode: if every
response reports status 1 and some iteration sees elapsed time beyond
`max_wait_time`, it stops at the first such iteration with the timeout error. -/
lemma pollLoop_timeout (job_id : String) (max_wait_time : Int) :
    ∀ trace : List PollStep,
      (∀ s ∈ trace, inProgressStep s) →
      (∃ s ∈ trace, s.elapsed > max_wait_time) →
      pollLoop job_id max_wait_time false trace =
        some (dumps (Json.obj [("error", Json.str (timeoutMsg max_wait_time)),
          ("job_id", Json.str job_id), ("last_status", Json.num 1)]), Json.num (-1)) := by
  intro trace
  induction trace with
  | nil => intro _ hex; simp at hex
  | cons step rest ih =>
    intro hall hex
    obtain ⟨fields, hresp, hst⟩ := hall step (List.mem_cons_self step rest)
    by_cases he : step.elapsed > max_wait_time
    · simp [pollLoop, hresp, hst, Json.pyEqInt, he]
    · have hexr : ∃ s ∈ rest, s.elapsed > max_wait_time := by
        rcases hex with ⟨s, hmem, hgt⟩
        rcases List.mem_cons.mp hmem with rfl | hmem2
        · exact absurd hgt he
        · exact ⟨s, hmem2, hgt⟩
      have hrec := ih (fun s hsmem => hall s (List.mem_cons_of_mem step hsmem)) hexr
      simp [pollLoop, hresp, hst, Json.pyEqInt, he, hrec]

/-- C2: with non-blank inputs and `single_query = false`, if every status-check
response decodes to status 1 and the elapsed time since the first poll attempt
exceeds `max_wait_time` at some iteration, `poll` terminates with code −1 and
an error object carrying the original `job_id` and the last known status. -/
theorem poll_all_running_times_out
    (job_id app_id secret_key : String)
    (hj : strip job_id ≠ "") (ha : strip app_id ≠ "") (hs : strip secret_key ≠ "")
    (max_wait_time : Int) (trace : List PollStep)
    (hall : ∀ s ∈ trace, inProgressStep s)
    (hex : ∃ s ∈ trace, s.elapsed > max_wait_time) :
    poll job_id app_id secret_key max_wait_time false trace =
      some (dumps (Json.obj [("error", Json.str (timeoutMsg max_wait_time)),
        ("job_id", Json.str job_id), ("last_status", Json.num 1)]), Json.num (-1)) := by
  unfold poll
  rw [if_neg (not_blank_cond hj), if_neg (not_blank_cond ha),
    if_neg (not_blank_cond hs)]
  exact pollLoop_timeout job_id max_wait_time trace hall hex

/-- Witness for C2: one status-1 response observed past the deadline. -/
theorem poll_all_running_times_out_witness :
    poll "job-1" "app" "secret" 300 false
        [⟨301, .ok (.obj [("status", Json.num 1)])⟩] =
      some (dumps (Json.obj [("error", Json.str (timeoutMsg 300)),
        ("job_id", Json.str "job-1"), ("last_status", Json.num 1)]), Json.num (-1)) :=
  poll_all_running_times_out "job-1" "app" "secret"
    (by decide) (by decide) (by decide) 300 _
    (by
      intro s hsmem
      simp only [List.mem_singleton] at hsmem
      subst hsmem
      exact ⟨[("status", Json.num 1)], rfl, rfl⟩)
    ⟨⟨301, .ok (.obj [("status", Json.num 1)])⟩, by simp, by decide⟩

/-- C7: with non-blank inputs, `single_query = false`, and a first response
whose integer status is none of 1, 2, 3, `poll` terminates immediately (the
remaining trace is arbitrary and unused) returning the full decoded body as
JSON text and that raw status as the code. -/
theorem poll_unknown_status_terminal
    (job_id app_id secret_key : String)
    (hj : strip job_id ≠ "") (ha : strip app_id ≠ "") (hs : strip secret_key ≠ "")
    (max_wait_time t : Int) (fields : List (String × Json)) (n : Int)
    (hst : lookupField fields "status" = some (Json.num n))
    (h1 : n ≠ 1) (h2 : n ≠ 2) (h3 : n ≠ 3) (rest : List PollStep) :
    poll job_id app_id secret_key max_wait_time false
        (⟨t, .ok (.obj fields)⟩ :: rest) =
      some (dumps (Json.obj fields), Json.num n) := by
  unfold poll
  rw [if_neg (not_blank_cond hj), if_neg (not_blank_cond ha),
    if_neg (not_blank_cond hs)]
  simp [pollLoop, hst, Json.pyEqInt, h1, h2, h3]

/-- Witness for C7: status 5 is returned as-is with the full body. -/
theorem poll_unknown_status_terminal_witness :
    poll "job-1" "app" "secret" 300 false
        [⟨0, .ok (.obj [("status", Json.num 5)])⟩] =
      some (dumps (Json.obj [("status", Json.num 5)]), Json.num 5) :=
  poll_unknown_status_terminal "job-1" "app" "secret"
    (by decide) (by decide) (by decide) 300 0 [("status", Json.num 5)] 5 rfl
    (by decide) (by decide) (by decide) []

/-- C6: a transport failure or a body-decoding failure makes the combined
submit unit return a JSON object with key `"error"`, and makes the poll unit
return such an object that also carries the `job_id`, with status code 0; the
rest of the poll trace is arbitrary and unused — a single failure ends the
poll without retry. All handlers return values, so no fault escapes. -/
theorem transport_failures_become_error_objects
    (text app_id secret_key job_id msg : String)
    (ht : strip text ≠ "") (ha : strip app_id ≠ "") (hsk : strip secret_key ≠ "")
    (hj : strip job_id ≠ "")
    (auto_poll single_query : Bool) (max_wait_time t : Int)
    (ptrace rest : List PollStep) :
    run text app_id secret_key auto_poll max_wait_time (.requestError msg) ptrace =
      some (dumps (Json.obj [("error", Json.str ("API 请求失败: " ++ msg))])) ∧
    run text app_id secret_key auto_poll max_wait_time (.decodeError msg) ptrace =
      some (dumps (Json.obj [("error", Json.str ("JSON 解析失败: " ++ msg))])) ∧
    poll job_id app_id secret_key max_wait_time single_query
        (⟨t, .requestError msg⟩ :: rest) =
      some (dumps (Json.obj [("error", Json.str ("轮询请求失败: " ++ msg)),
        ("job_id", Json.str job_id)]), Json.num 0) ∧
    poll job_id app_id secret_key max_wait_time single_query
        (⟨t, .decodeError msg⟩ :: rest) =
      some (dumps (Json.obj [("error", Json.str ("轮询过程出错: " ++ msg)),
        ("job_id", Json.str job_id)]), Json.num 0) := by
  refine ⟨?_, ?_, ?_, ?_⟩ <;>
    · first
      | (unfold run
         rw [if_neg (not_blank_cond ht), if_neg (not_blank_cond ha),
           if_neg (not_blank_cond hsk)])
      | (unfold poll
         rw [if_neg (not_blank_cond hj), if_neg (not_blank_cond ha),
           if_neg (not_blank_cond hsk)]
         simp [pollLoop])

/-- Witness for C6 at a concrete failure. -/
theorem transport_failures_become_error_objects_witness :
    run "hello" "app" "secret" true 300 (.requestError "boom") [] =
      some (dumps (Json.obj [("error", Json.str ("API 请求失败: " ++ "boom"))])) ∧
    run "hello" "app" "secret" true 300 (.decodeError "boom") [] =
      some (dumps (Json.obj [("error", Json.str ("JSON 解析失败: " ++ "boom"))])) ∧
    poll "job-1" "app" "secret" 300 false [⟨0, .requestError "boom"⟩] =
      some (dumps (Json.obj [("error", Json.str ("轮询请求失败: " ++ "boom")),
        ("job_id", Json.str "job-1")]), Json.num 0) ∧
    poll "job-1" "app" "secret" 300 false [⟨0, .decodeError "boom"⟩] =
      some (dumps (Json.obj [("error", Json.str ("轮询过程出错: " ++ "boom")),
        ("job_id", Json.str "job-1")]), Json.num 0) :=
  transport_failures_become_error_objects "hello" "app" "secret" "job-1" "boom"
    (by decide) (by decide) (by decide) (by decide) true false 300 0 [] []

/-- C5: a blank (empty or whitespace-only) `text`, `app_id` or `secret_key`
makes both the combined unit and the submit-only unit return an error-shaped
JSON result; the output does not depend on the network environment at all
(the same value is returned for every `post`/`ptrace`), so no network call is
consulted, and the `ValueError` is converted rather than raised. -/
theorem blank_inputs_rejected_without_network
    (text app_id secret_key : String)
    (h : strip text = "" ∨ strip app_id = "" ∨ strip secret_key = "") :
    ∃ msg, (∀ auto_poll max_wait_time post ptrace,
        run text app_id secret_key auto_poll max_wait_time post ptrace =
          some (dumps (Json.obj [("error", Json.str msg)]))) ∧
      (∀ post, submit text app_id secret_key post =
          (Json.str "", dumps (Json.obj [("error", Json.str msg)]))) := by
  by_cases hText : strip text = ""
  · refine ⟨"未知错误: text 不能为空", fun a m p pt => ?_, fun p => ?_⟩
    · unfold run; rw [if_pos (Or.inr hText)]
    · unfold submit; rw [if_pos (Or.inr hText)]
  · by_cases hApp : strip app_id = ""
    · refine ⟨"未知错误: app_id 不能为空", fun a m p pt => ?_, fun p => ?_⟩
      · unfold run
        rw [if_neg (not_blank_cond hText), if_pos (Or.inr hApp)]
      · unfold submit
        rw [if_neg (not_blank_cond hText), if_pos (Or.inr hApp)]
    · have hSecret : strip secret_key = "" := by tauto
      refine ⟨"未知错误: secret_key 不能为空", fun a m p pt => ?_, fun p => ?_⟩
      · unfold run
        rw [if_neg (not_blank_cond hText), if_neg (not_blank_cond hApp),
          if_pos (Or.inr hSecret)]
      · unfold submit
        rw [if_neg (not_blank_cond hText), if_neg (not_blank_cond hApp),
          if_pos (Or.inr hSecret)]

/-- Witness for C5: whitespace-only text is rejected identically under two
different network environments. -/
theorem blank_inputs_rejected_without_network_witness :
    ∃ msg, run "  " "app" "secret" true 300 (.ok Json.null) [] =
        some (dumps (Json.obj [("error", Json.str msg)])) ∧
      run "  " "app" "secret" true 300 (.requestError "x") [] =
        some (dumps (Json.obj [("error", Json.str msg)])) ∧
      submit "  " "app" "secret" (.ok Json.null) =
        (Json.str "", dumps (Json.obj [("error", Json.str msg)])) := by
  obtain ⟨msg, h1, h2⟩ :=
    blank_inputs_rejected_without_network "  " "app" "secret" (Or.inl (by decide))
  exact ⟨msg, h1 true 300 (.ok Json.null) [], h1 true 300 (.requestError "x") [],
    h2 (.ok Json.null)⟩

/-- Counterexample to C4 as stated: a submission response with status 1 and
auto-poll enabled but no `id` field does not delegate to the internal loop —
`run` returns the submission body itself, which differs from the loop's final
body on the same trace. -/
theorem run_autopoll_counterexample :
    run "t" "a" "s" true 300 (.ok (Json.obj [("status", Json.num 1)]))
        [⟨0, .ok (Json.obj [("status", Json.num 2)])⟩] =
      some (dumps (Json.obj [("status", Json.num 1)])) ∧
    (poll_job_result (Json.str "") 300
        [⟨0, .ok (Json.obj [("status", Json.num 2)])⟩]).map dumps =
      some (dumps (Json.obj [("status", Json.num 2)])) ∧
    dumps (Json.obj [("status", Json.num 1)]) ≠
      dumps (Json.obj [("status", Json.num 2)]) :=
  ⟨rfl, rfl, by decide⟩

/-- C4 (amended with the truthy job id the code also requires): when the
submission response decodes to status 1 with a truthy `id` and auto-poll is
enabled, `run` returns exactly the internal loop's final body serialized as
JSON text — a single output with no status-code channel; and that internal
loop has no single-query escape and follows the status-transition rules:
before the deadline, statuses 2 and 3 and any other non-1 status are terminal
with the full body, status 1 always retries, and past the deadline the loop
stops with a timeout error object carrying the job id. -/
theorem run_autopoll_delegates
    (text app_id secret_key : String)
    (ht : strip text ≠ "") (ha : strip app_id ≠ "") (hsk : strip secret_key ≠ "")
    (max_wait_time : Int) (fields : List (String × Json)) (jid : Json)
    (hid : lookupField fields "id" = some jid) (htruthy : jid.pyTruthy = true)
    (hst : lookupField fields "status" = some (Json.num 1))
    (ptrace : List PollStep) :
    run text app_id secret_key true max_wait_time (.ok (.obj fields)) ptrace =
      (poll_job_result jid max_wait_time ptrace).map dumps ∧
    (∀ (t : Int) (r : HttpResult) (rest : List PollStep), t > max_wait_time →
      poll_job_result jid max_wait_time (⟨t, r⟩ :: rest) =
        some (Json.obj [("error", Json.str (timeoutMsg max_wait_time)),
          ("job_id", jid)])) ∧
    (∀ (t : Int) (rest : List PollStep) (fs2 : List (String × Json)) (m : Int),
      ¬t > max_wait_time → lookupField fs2 "status" = some (Json.num m) → m ≠ 1 →
      poll_job_result jid max_wait_time (⟨t, .ok (.obj fs2)⟩ :: rest) =
        some (Json.obj fs2)) ∧
    (∀ (t : Int) (rest : List PollStep) (fs2 : List (String × Json)),
      ¬t > max_wait_time → lookupField fs2 "status" = some (Json.num 1) →
      poll_job_result jid max_wait_time (⟨t, .ok (.obj fs2)⟩ :: rest) =
        poll_job_result jid max_wait_time rest) := by
  refine ⟨?_, ?_, ?_, ?_⟩
  · unfold run
    rw [if_neg (not_blank_cond ht), if_neg (not_blank_cond ha),
      if_neg (not_blank_cond hsk)]
    cases hpoll : poll_job_result jid max_wait_time ptrace <;>
      simp [hid, hst, htruthy, Json.pyEqInt, hpoll]
  · intro t r rest hgt
    simp [poll_job_result, hgt]
  · intro t rest fs2 m hle hst2 hm1
    by_cases hm2 : m = 2
    · subst hm2; simp [poll_job_result, hle, hst2, Json.pyEqInt]
    · by_cases hm3 : m = 3
      · subst hm3; simp [poll_job_result, hle, hst2, Json.pyEqInt]
      · simp [poll_job_result, hle, hst2, Json.pyEqInt, hm1, hm2, hm3]
  · intro t rest fs2 hle hst2
    simp [poll_job_result, hle, hst2, Json.pyEqInt]

/-- Witness for the amended C4 on a concrete run: status 1 then status 2. -/
theorem run_autopoll_delegates_witness :
    run "t" "a" "s" true 300
        (.ok (Json.obj [("id", Json.str "job-1"), ("status", Json.num 1)]))
        [⟨10, .ok (Json.obj [("status", Json.num 1)])⟩,
         ⟨20, .ok (Json.obj [("status", Json.num 2), ("urls", Json.arr [Json.str "u"])])⟩] =
      (poll_job_result (Json.str "job-1") 300
        [⟨10, .ok (Json.obj [("status", Json.num 1)])⟩,
         ⟨20, .ok (Json.obj [("status", Json.num 2), ("urls", Json.arr [Json.str "u"])])⟩]).map dumps ∧
    poll_job_result (Json.str "job-1") 300
        [⟨400, .requestError "x"⟩] =
      some (Json.obj [("error", Json.str (timeoutMsg 300)),
        ("job_id", Json.str "job-1")]) := by
  obtain ⟨hrun, htimeout, hterm, hretry⟩ :=
    run_autopoll_delegates "t" "a" "s" (by decide) (by decide) (by decide) 300
      [("id", Json.str "job-1"), ("status", Json.num 1)] (Json.str "job-1")
      rfl (by decide) rfl
      [⟨10, .ok (Json.obj [("status", Json.num 1)])⟩,
       ⟨20, .ok (Json.obj [("status", Json.num 2), ("urls", Json.arr [Json.str "u"])])⟩]
  exact ⟨hrun, htimeout 400 (.requestError "x") [] (by decide)⟩

/-- Counterexample to C3 as stated: extracting the integer field `a` from
`\x7b"a": 1\x7d` formats the string result `"1"`, whose JSON re-parse succeeds,
so the primary returned value is the integer 1, not the formatting step's
string value. -/
theorem extract_reparse_changes_primary_value :
    extract (.str "\x7b\"a\": 1\x7d") "a" "" true = .uiDict (Json.num 1) "1" ∧
    formatResult (Json.num 1) true = "1" ∧
    (extract (.str "\x7b\"a\": 1\x7d") "a" "" true).primaryValue ≠
      Json.str (formatResult (Json.num 1) true) := by
  refine ⟨rfl, rfl, ?_⟩
  have h1 : (extract (.str "\x7b\"a\": 1\x7d") "a" "" true).primaryValue =
      Json.num 1 := rfl
  rw [h1]
  intro h
  exact Json.noConfusion h

/-- C3 (amended): the re-parse step does determine the primary returned value.
Whenever decoding and traversal succeed, `extract` returns the UI dict whose
text preview is exactly the formatting step's string and whose primary value
is that string's JSON re-parse when it succeeds, falling back to the plain
string when it fails. -/
theorem extract_primary_is_reparsed_formatted
    (input : ExtractInput) (key_path default_value : String) (ras : Bool)
    (data cur : Json)
    (hdec : decodeInput input = some data)
    (htrav : traverse data (splitDot (strip key_path)) = .ok cur) :
    extract input key_path default_value ras =
      .uiDict ((loads (formatResult cur ras)).getD (Json.str (formatResult cur ras)))
        (formatResult cur ras) := by
  simp only [extract, extractTry, hdec, htrav]
  cases h : loads (formatResult cur ras) <;> simp [h]

/-- Witness for the amended C3: a string field re-parses to nothing and passes
through unchanged. -/
theorem extract_primary_is_reparsed_formatted_witness :
    extract (.decoded (Json.obj [("k", Json.str "v")])) "k" "" true =
      .uiDict ((loads (formatResult (Json.str "v") true)).getD
          (Json.str (formatResult (Json.str "v") true)))
        (formatResult (Json.str "v") true) :=
  extract_primary_is_reparsed_formatted
    (.decoded (Json.obj [("k", Json.str "v")])) "k" "" true
    (Json.obj [("k", Json.str "v")]) (Json.str "v") rfl rfl

/-- C8: when `json_input` is a string that fails to parse as JSON, `extract`
returns the caller-supplied `default_value` as a bare one-element tuple, for
every `key_path`, `default_value` and `return_as_string` — the decode error is
caught, not raised. -/
theorem extract_malformed_json_returns_default
    (s key_path default_value : String) (ras : Bool) (h : loads s = none) :
    extract (.str s) key_path default_value ras = .plainTuple default_value := by
  simp only [extract, extractTry, decodeInput, h]

/-- Witness for C8 on a malformed input. -/
theorem extract_malformed_json_returns_default_witness :
    extract (.str "not json") "urls.0" "D" true = .plainTuple "D" :=
  extract_malformed_json_returns_default "not json" "urls.0" "D" true rfl

/-- C9: `extract` on `\x7b"urls":["a","b"]\x7d` with path `urls.1` yields the
value `"b"`; on `\x7b"a":1\x7d` with path `urls.1` and default `"X"` it yields
`"X"`; and in general every traversal failure (missing key or out-of-range
index) yields the default value as a bare tuple rather than a raised fault. -/
theorem extract_path_examples_and_default :
    (extract (.str "\x7b\"urls\":[\"a\",\"b\"]\x7d") "urls.1" "" true).primaryValue =
      Json.str "b" ∧
    extract (.str "\x7b\"a\":1\x7d") "urls.1" "X" true = .plainTuple "X" ∧
    (∀ (j : Json) (key_path default_value : String) (ras : Bool) (e : PyErr),
      traverse j (splitDot (strip key_path)) = .error e →
      extract (.decoded j) key_path default_value ras = .plainTuple default_value) := by
  refine ⟨rfl, rfl, ?_⟩
  intro j key_path default_value ras e htrav
  simp only [extract, extractTry, decodeInput, htrav]

/-- Witness for C9's general part at a missing-key input. -/
theorem extract_path_examples_and_default_witness :
    extract (.decoded (Json.obj [("a", Json.num 1)])) "urls.1" "X" true =
      .plainTuple "X" :=
  extract_path_examples_and_default.2.2 (Json.obj [("a", Json.num 1)])
    "urls.1" "X" true (.keyError ("键 \x27urls\x27 不存在")) rfl

/-- C10: the two outcome branches of `extract` have different result shapes.
When decoding and traversal succeed the node returns the UI dict — preview
payload plus a one-element result tuple holding the formatted extracted
value — and when the body fails it returns the bare one-element tuple holding
`default_value`; the two shapes are never equal. -/
theorem extract_success_and_failure_shapes :
    (∀ (input : ExtractInput) (key_path default_value : String) (ras : Bool)
        (data cur : Json),
      decodeInput input = some data →
      traverse data (splitDot (strip key_path)) = .ok cur →
      ∃ f t, extract input key_path default_value ras = .uiDict f t ∧
        f = (loads (formatResult cur ras)).getD (Json.str (formatResult cur ras)) ∧
        t = formatResult cur ras) ∧
    (∀ (input : ExtractInput) (key_path default_value : String) (ras : Bool)
        (e : PyErr),
      extractTry input key_path ras = .error e →
      extract input key_path default_value ras = .plainTuple default_value) ∧
    (∀ (f : Json) (t v : String),
      ExtractResult.uiDict f t ≠ ExtractResult.plainTuple v) := by
  refine ⟨?_, ?_, ?_⟩
  · intro input key_path default_value ras data cur hdec htrav
    refine ⟨(loads (formatResult cur ras)).getD (Json.str (formatResult cur ras)),
      formatResult cur ras, ?_, rfl, rfl⟩
    simp only [extract, extractTry, hdec, htrav]
    cases h : loads (formatResult cur ras) <;> simp [h]
  · intro input key_path default_value ras e herr
    simp only [extract, herr]
  · intro f t v h
    exact ExtractResult.noConfusion h

/-- Witness for C10 at a concrete success and a concrete failure. -/
theorem extract_success_and_failure_shapes_witness :
    (∃ f t, extract (.decoded (Json.obj [("a", Json.num 7)])) "a" "" true =
        .uiDict f t ∧
      f = (loads (formatResult (Json.num 7) true)).getD
          (Json.str (formatResult (Json.num 7) true)) ∧
      t = formatResult (Json.num 7) true) ∧
    extract (.str "not json at all") "a" "D" true = .plainTuple "D" := by
  refine ⟨extract_success_and_failure_shapes.1
    (.decoded (Json.obj [("a", Json.num 7)])) "a" "" true
    (Json.obj [("a", Json.num 7)]) (Json.num 7) rfl rfl, ?_⟩
  exact extract_success_and_failure_shapes.2.1 (.str "not json at all") "a" "D" true
    (.jsonDecodeError "Expecting value") rfl

end Midjourney
